import Mathlib

/-!
Shallow embedding of SimulaQron's command-line front end
(`simulaqron/SimulaQron.py`) and of the native-mode node template
(`examples/nativeMode/template/nodeTest.py`), with theorems about the
embedded operations: the settings commands, the pid-record handling of the
`start` and `stop` commands, the node-list construction inside the supervisor
daemon, the daemon's blocking loop, and the node bootstrap of the template.
-/

/-- A settings store: a map from a configuration section and a key to an
optional value, mirroring the INI-file store behind
`simulaqron_settings.set_setting`. -/
abbrev SettingsMap : Type := String → String → Option String

/-- An empty settings store. -/
def no_settings : SettingsMap := fun _ _ => none

/-- `simulaqron_settings.set_setting(section, key, value)`: write one key in
one section and leave every other entry unchanged. -/
def set_setting (sec key value : String) (s : SettingsMap) : SettingsMap :=
  fun sec2 key2 => if sec2 = sec ∧ key2 = key then some value else s sec2 key2

/-- CLI command `simulaqron set conn_retry_time VALUE`: writes the `waittime`
backend setting (`SimulaQron.py`, lines 173-177). -/
def conn_retry_time (value : Float) (s : SettingsMap) : SettingsMap :=
  set_setting ("BACKEND") ("waittime") (toString value) s

/-- CLI command `simulaqron set recv_timeout VALUE`: writes the `recvtimeout`
and then the `recveprtimeout` backend settings (lines 180-185). -/
def recv_timeout (value : Float) (s : SettingsMap) : SettingsMap :=
  set_setting ("BACKEND") ("recveprtimeout") (toString value)
    (set_setting ("BACKEND") ("recvtimeout") (toString value) s)

/-- CLI command `simulaqron set recv_retry_time VALUE`: writes the
`waittimerecv` backend setting (lines 188-192). -/
def recv_retry_time (value : Float) (s : SettingsMap) : SettingsMap :=
  set_setting ("BACKEND") ("waittimerecv") (toString value) s

/-- Modelled from the click library (an external dependency, not part of these
sources): a `click.Choice(choices)` argument validator accepts exactly the
members of the iterable `choices`, and iterating a Python string yields its
one-character substrings. In `click.Choice("on", "off")` the string `on` is
the choices iterable (the second positional argument lands on the
`case_sensitive` parameter), so the choices are the one-character strings of
`on`. -/
def stringChoices (s : String) : List String :=
  s.toList.map (fun c => String.mk [c])

/-- Whether a value passes a `click.Choice` validator with the given list of
choices (membership test). -/
def choiceAccepts (choices : List String) (v : String) : Bool :=
  decide (v ∈ choices)

/-- CLI command `simulaqron set noisy_qubits VALUE` (lines 238-245): stores
the string `True` when the validated value equals `on`, else stores the
string `False`. -/
def noisy_qubits (value : String) (s : SettingsMap) : SettingsMap :=
  if value = ("on") then set_setting ("BACKEND") ("noisy_qubits") ("True") s
  else set_setting ("BACKEND") ("noisy_qubits") ("False") s

/-- The pid-record file name the `start` command computes (lines 86-88): the
name defaults to `default`, and the record is named
`simulaqron_network_<name>.pid` inside the pid folder. -/
def start_pidfile (name : Option String) : String :=
  ("simulaqron_network_") ++ name.getD ("default") ++ (".pid")

/-- The pid-record file name the `stop` command computes (lines 109-111),
with the same defaulting. -/
def stop_pidfile (name : Option String) : String :=
  ("simulaqron_network_") ++ name.getD ("default") ++ (".pid")

/-- A supervisor daemon process, as constructed by the lifecycle commands
(`SimulaQronDaemon.__init__`, lines 17-22). -/
structure SimulaQronDaemon where
  pidfile : String
  name : Option String
  nrnodes : Option Int
  nodes : Option String
  topology : Option String
deriving DecidableEq, Repr

/-- The observable system state the lifecycle commands act on: which pid
records exist, which daemons run, and the warnings logged so far. -/
structure SysState where
  pidfiles : List String
  daemons : List SimulaQronDaemon
  warnings : List String
deriving DecidableEq, Repr

/-- Outcome of the `start` command. The `duplicate` outcome is the code's
warn-and-return path for an already-running name, the realization of the
spec's `DuplicateInstanceError`. -/
inductive StartOutcome
  | duplicate
  | started
deriving DecidableEq, Repr

/-- The warning `start` logs for a duplicate name (line 90). -/
def start_warning (name : String) : String :=
  ("Network with name ") ++ name ++ (" is already running")

/-- CLI command `simulaqron start` (lines 83-93): resolve the name, and if the
pid record already exists, log a warning and return without constructing a
daemon; otherwise construct the daemon and start it (the daemon library
writes the pid record for the new process). -/
def start (name : Option String) (nrnodes : Option Int) (nodes topology : Option String)
    (st : SysState) : StartOutcome × SysState :=
  let resolved := name.getD ("default")
  let pidfile := start_pidfile name
  if st.pidfiles.contains pidfile then
    (StartOutcome.duplicate,
      { st with warnings := st.warnings ++ [start_warning resolved] })
  else
    (StartOutcome.started,
      { st with
          pidfiles := st.pidfiles ++ [pidfile],
          daemons := st.daemons ++ [{ pidfile := pidfile, name := some resolved,
                                      nrnodes := nrnodes, nodes := nodes,
                                      topology := topology }] })

/-- Outcome of the `stop` command. -/
inductive StopOutcome
  | notRunning
  | stopped
deriving DecidableEq, Repr

/-- The warning `stop` logs for a name that is not running (line 113). -/
def stop_warning (name : String) : String :=
  ("Network with name ") ++ name ++ (" is not running")

/-- CLI command `simulaqron stop` (lines 107-116): resolve the name, and if
the pid record does not exist, log a warning and return; otherwise stop the
daemon identified by that pid record (the daemon library removes the
record when the process exits). -/
def stop (name : Option String) (st : SysState) : StopOutcome × SysState :=
  let resolved := name.getD ("default")
  let pidfile := stop_pidfile name
  if ! st.pidfiles.contains pidfile then
    (StopOutcome.notRunning,
      { st with warnings := st.warnings ++ [stop_warning resolved] })
  else
    (StopOutcome.stopped,
      { st with
          pidfiles := st.pidfiles.filter (fun p => p ≠ pidfile),
          daemons := st.daemons.filter (fun d => d.pidfile ≠ pidfile) })

/-- Python truthiness of the optional integer `nrnodes` CLI argument: truthy
iff present and nonzero. -/
def truthyInt : Option Int → Bool
  | none => false
  | some n => n != 0

/-- Python truthiness of an optional string CLI argument: truthy iff present
and nonempty. -/
def truthyStr : Option String → Bool
  | none => false
  | some s => s != ("")

/-- One step of Python's `str.split(",")`: prepend a character to the split
accumulator, starting a new field at a comma. -/
def splitFold (c : Char) (acc : List (List Char)) : List (List Char) :=
  match acc with
  | cur :: rest => if c = ',' then [] :: cur :: rest else (c :: cur) :: rest
  | [] => [[c]]

/-- Python's `s.split(",")`: the comma-separated fields of `s` (the empty
string yields one empty field, as in Python). -/
def pySplitComma (s : String) : List String :=
  (s.toList.foldr splitFold [[]]).map (fun cs => String.mk cs)

/-- The node-name padding `"Node{}".format(i)` (line 34). -/
def formatNode (i : Nat) : String := ("Node") ++ toString i

/-- What `SimulaQronDaemon.run` passes as `nodes=` to the `Network`
constructor: either a list built from the CLI arguments (when any of them is
truthy) or the raw `nodes` attribute passed through (lines 27-36). -/
inductive NodesArg
  | asList (l : List String)
  | passthrough (v : Option String)
deriving DecidableEq, Repr

/-- The node-list computation of `SimulaQronDaemon.run` (lines 27-36): when
any argument is truthy, split the comma-separated `nodes` argument (empty
list when absent), then, when `nrnodes` is truthy and exceeds the current
length, pad with the generated names `Node0`, `Node1`, ... counted from 0. -/
def SimulaQronDaemon.run_nodes (nrnodes : Option Int) (nodes topology : Option String) :
    NodesArg :=
  if truthyInt nrnodes || truthyStr nodes || truthyStr topology then
    let ns := if truthyStr nodes then pySplitComma (nodes.getD ("")) else []
    let ns :=
      if truthyInt nrnodes && decide ((ns.length : Int) < nrnodes.getD 0) then
        ns ++ (List.range (nrnodes.getD 0 - (ns.length : Int)).toNat).map formatNode
      else ns
    NodesArg.asList ns
  else NodesArg.passthrough nodes

/-- One observable action of the daemon's `run` method. -/
inductive DaemonAction
  | startNetwork (name : Option String) (nodes : NodesArg) (topology : Option String)
  | sleepTenthSecond
deriving DecidableEq, Repr

/-- The step-indexed trace of `SimulaQronDaemon.run` (lines 24-42): step 0
builds the node list and starts the network; every later step is one
iteration of `while True: time.sleep(0.1)`, a suspension. The trace is total
on `Nat`: the method has no return path after the network is started. -/
def SimulaQronDaemon.run_trace (name : Option String) (nrnodes : Option Int)
    (nodes topology : Option String) : Nat → DaemonAction
  | 0 => DaemonAction.startNetwork name (SimulaQronDaemon.run_nodes nrnodes nodes topology)
           topology
  | _ + 1 => DaemonAction.sleepTenthSecond

/-- A live remote-object handle (a twisted object supporting remote method
calls). -/
inductive Handle
  | live (endpoint : String)
deriving DecidableEq, Repr

/-- A parsed host-configuration file: `hostDict` maps node names to host
records (modelled by an endpoint string). Mirrors
`simulaqron.general.hostConfig.socketsConfig` as consumed by `main`. -/
structure socketsConfig where
  hostDict : List (String × String)
deriving DecidableEq, Repr

/-- The `localNode` server object of the node template (`nodeTest.py`,
lines 91-104). -/
structure localNode where
  node : String
  classicalNet : socketsConfig
  virtRoot : Option Handle
  qReg : Option Handle
deriving DecidableEq, Repr

/-- `localNode.__init__` (lines 92-98): store the node and the classical
registry; both backend-handle fields start out as `None`. -/
def localNode.init (node : String) (classicalNet : socketsConfig) : localNode :=
  { node := node, classicalNet := classicalNet, virtRoot := none, qReg := none }

/-- `localNode.set_virtual_node` (lines 100-101): late-bind the virtual-root
handle. -/
def localNode.set_virtual_node (self : localNode) (virtRoot : Option Handle) : localNode :=
  { self with virtRoot := virtRoot }

/-- `localNode.set_virtual_reg` (lines 103-104): late-bind the quantum
register handle. -/
def localNode.set_virtual_reg (self : localNode) (qReg : Option Handle) : localNode :=
  { self with qReg := qReg }

/-- The classical-server decision in `main` (lines 145-148): construct a
`localNode` on this node's host record iff `myName` is a key of
`classicalNet.hostDict`; otherwise pass `None`. -/
def main_lNode (myName : String) (classicalNet : socketsConfig) : Option localNode :=
  match classicalNet.hostDict.lookup myName with
  | some host => some (localNode.init host classicalNet)
  | none => none

/-- Terminal state of a node's bootstrap. -/
inductive CoordState
  | running
  | failed
deriving DecidableEq, Repr

/-- A record of one invocation of the application continuation
(`runClientNode`): the handles the bootstrap passed to it. -/
structure ContCall where
  qReg : Option Handle
  virtRoot : Option Handle
  classicalNet : socketsConfig
deriving DecidableEq, Repr

/-- Modelled from the spec: `setup_local` (module `simulaqron.local.setup`) is
not among the sources. Per the spec's rendezvous design, the bootstrap of
node `myName` opens the backend link (yielding the `qReg` and `virtRoot`
handles) and one link per neighbor in the topology, and, exactly when all of
these are live, invokes the continuation once, synchronously, with the
backend handles and the classical registry; if any link fails the bootstrap
fails without invoking the continuation. `env e = true` means endpoint `e`
connects within its timeout. The returned list records every continuation
invocation made, together with the handles passed to it. -/
def setup_local (env : String → Bool) (myName : String) (neighbors : List String)
    (classicalNet : socketsConfig) : CoordState × List ContCall :=
  if env myName then
    if neighbors.all (fun nb => env nb) then
      (CoordState.running,
        [{ qReg := some (Handle.live myName), virtRoot := some (Handle.live myName),
           classicalNet := classicalNet }])
    else (CoordState.failed, [])
  else (CoordState.failed, [])

/-- Looking a key up in an association list succeeds exactly when the key is
among the mapped first components. -/
theorem lookup_isSome_iff_mem (k : String) (l : List (String × String)) :
    (l.lookup k).isSome = true ↔ k ∈ l.map Prod.fst := by
  induction l with
  | nil => simp [List.lookup]
  | cons p t ih =>
    obtain ⟨a, b⟩ := p
    by_cases h : k = a
    · subst h
      simp [List.lookup]
    · have hb : (k == a) = false := by simp [h]
      simp only [List.lookup, hb]
      rw [ih]
      simp [h]

/-- C1: whenever the backend link and every neighbor link of a node come up
within their timeouts, the bootstrap reaches the running state and invokes
the application continuation exactly once, with live handles for `qReg` and
`virtRoot` and with the registry of classical peers; moreover the
continuation is never invoked at all unless the backend and every neighbor
are live. -/
theorem claim_C1 (env : String → Bool) (myName : String) (neighbors : List String)
    (cnet : socketsConfig)
    (hb : env myName = true) (hp : ∀ nb ∈ neighbors, env nb = true) :
    (setup_local env myName neighbors cnet).1 = CoordState.running ∧
    (setup_local env myName neighbors cnet).2 =
      [{ qReg := some (Handle.live myName), virtRoot := some (Handle.live myName),
         classicalNet := cnet }] ∧
    (∀ call ∈ (setup_local env myName neighbors cnet).2,
        call.qReg.isSome = true ∧ call.virtRoot.isSome = true ∧ call.classicalNet = cnet) ∧
    (∀ env2 : String → Bool, (setup_local env2 myName neighbors cnet).2 ≠ [] →
        env2 myName = true ∧ ∀ nb ∈ neighbors, env2 nb = true) := by
  have hall : neighbors.all (fun nb => env nb) = true := List.all_eq_true.mpr hp
  refine ⟨?_, ?_, ?_, ?_⟩
  · simp [setup_local, hb, hall]
  · simp [setup_local, hb, hall]
  · intro call hc
    simp [setup_local, hb, hall] at hc
    subst hc
    exact ⟨rfl, rfl, rfl⟩
  · intro env2 hne
    cases hbe : env2 myName with
    | false => simp [setup_local, hbe] at hne
    | true =>
      cases hae : neighbors.all (fun nb => env2 nb) with
      | false => simp [setup_local, hbe, hae] at hne
      | true => exact ⟨rfl, List.all_eq_true.mp hae⟩

/-- Witness for C1 at a concrete network: every endpoint reachable, node
`Alice` with neighbor `Bob`. -/
theorem claim_C1_witness :
    (setup_local (fun _ => true) ("Alice") [("Bob")] { hostDict := [] }).1 =
      CoordState.running ∧
    (setup_local (fun _ => true) ("Alice") [("Bob")] { hostDict := [] }).2.length = 1 := by
  have h := claim_C1 (fun _ => true) ("Alice") [("Bob")] { hostDict := [] } rfl
    (fun nb _ => rfl)
  exact ⟨h.1, by simp [h.2.1]⟩

/-- C2: starting a network under a name whose pid record already exists takes
the duplicate path (a logged warning and an early return), starts no new
daemon, and leaves the pid records and daemons of the running instance
unchanged. -/
theorem claim_C2 (name : Option String) (nrnodes : Option Int) (nodes topology : Option String)
    (st : SysState) (h : st.pidfiles.contains (start_pidfile name) = true) :
    (start name nrnodes nodes topology st).1 = StartOutcome.duplicate ∧
    (start name nrnodes nodes topology st).2.pidfiles = st.pidfiles ∧
    (start name nrnodes nodes topology st).2.daemons = st.daemons ∧
    (start name nrnodes nodes topology st).2.warnings =
      st.warnings ++ [start_warning (name.getD ("default"))] := by
  simp at h
  simp [start, h]

/-- Witness for C2: the default-named network is already running. -/
theorem claim_C2_witness :
    (start none none none none
        { pidfiles := [start_pidfile none], daemons := [], warnings := [] }).1 =
      StartOutcome.duplicate ∧
    (start none none none none
        { pidfiles := [start_pidfile none], daemons := [], warnings := [] }).2.pidfiles =
      [start_pidfile none] ∧
    (start none none none none
        { pidfiles := [start_pidfile none], daemons := [], warnings := [] }).2.daemons =
      [] ∧
    (start none none none none
        { pidfiles := [start_pidfile none], daemons := [], warnings := [] }).2.warnings =
      [] ++ [start_warning ((none : Option String).getD ("default"))] :=
  claim_C2 none none none none
    { pidfiles := [start_pidfile none], daemons := [], warnings := [] } (by decide)

/-- C3: the node list handed to the `Network` constructor is claimed to be
duplicate-free, but with `nodes="Node0"` and `nrnodes=2` the padding names
are generated from index 0 regardless of the explicit names, so the code
produces the list `[Node0, Node0]`, which is not `Nodup`. -/
theorem claim_C3 :
    SimulaQronDaemon.run_nodes (some 2) (some ("Node0")) none =
      NodesArg.asList [("Node0"), ("Node0")] ∧
    ¬ ([("Node0"), ("Node0")] : List String).Nodup := by
  constructor
  · decide
  · decide

/-- C4: in the daemon's `run` method, step 0 starts the network and every
later step of the (total, hence never-returning) trace is a sleep — each loop
iteration suspends, and there is no exit path. -/
theorem claim_C4 (name : Option String) (nrnodes : Option Int)
    (nodes topology : Option String) (n : Nat) :
    SimulaQronDaemon.run_trace name nrnodes nodes topology (n + 1) =
      DaemonAction.sleepTenthSecond ∧
    SimulaQronDaemon.run_trace name nrnodes nodes topology 0 =
      DaemonAction.startNetwork name (SimulaQronDaemon.run_nodes nrnodes nodes topology)
        topology :=
  ⟨rfl, rfl⟩

/-- C5: `main` constructs a classical-server object iff the node's own name is
a key of the classical registry; the constructed object (when any) is built
from the registry's host record for that name, and otherwise `None` is
passed. -/
theorem claim_C5 (myName : String) (cnet : socketsConfig) :
    ((main_lNode myName cnet).isSome = true ↔ myName ∈ cnet.hostDict.map Prod.fst) ∧
    main_lNode myName cnet =
      (cnet.hostDict.lookup myName).map (fun host => localNode.init host cnet) := by
  have e : main_lNode myName cnet =
      (cnet.hostDict.lookup myName).map (fun host => localNode.init host cnet) := by
    cases h : cnet.hostDict.lookup myName <;> simp [main_lNode, h]
  refine ⟨?_, e⟩
  rw [e]
  rw [show ((cnet.hostDict.lookup myName).map
        (fun host => localNode.init host cnet)).isSome = (cnet.hostDict.lookup myName).isSome
      from by cases cnet.hostDict.lookup myName <;> rfl]
  exact lookup_isSome_iff_mem myName cnet.hostDict

/-- C6: after construction both backend-handle fields of a `localNode` are
`None`, and the two late-binding setters each write exactly their own field,
leaving `node`, `classicalNet`, and the other backend-handle field
unchanged. -/
theorem claim_C6 (node : String) (cnet : socketsConfig) (l : localNode)
    (v r : Option Handle) :
    (localNode.init node cnet).virtRoot = none ∧
    (localNode.init node cnet).qReg = none ∧
    (localNode.init node cnet).node = node ∧
    (localNode.init node cnet).classicalNet = cnet ∧
    (l.set_virtual_node v).virtRoot = v ∧
    (l.set_virtual_node v).qReg = l.qReg ∧
    (l.set_virtual_node v).node = l.node ∧
    (l.set_virtual_node v).classicalNet = l.classicalNet ∧
    (l.set_virtual_reg r).qReg = r ∧
    (l.set_virtual_reg r).virtRoot = l.virtRoot ∧
    (l.set_virtual_reg r).node = l.node ∧
    (l.set_virtual_reg r).classicalNet = l.classicalNet :=
  ⟨rfl, rfl, rfl, rfl, rfl, rfl, rfl, rfl, rfl, rfl, rfl, rfl⟩

/-- C7: the three timeout commands touch disjoint settings: `conn_retry_time`
writes the `waittime` entry and leaves every other entry — in particular the
receive-side keys `recvtimeout`, `recveprtimeout` and `waittimerecv` —
unchanged; `recv_retry_time` writes the `waittimerecv` entry and leaves every
other entry unchanged; `recv_timeout` writes the `recvtimeout` and
`recveprtimeout` entries and leaves every other entry — in particular
`waittime` and `waittimerecv` — unchanged. Each command's frame excludes only
the key(s) that command itself writes. -/
theorem claim_C7 (v : Float) (s : SettingsMap) :
    (∀ sec key, ¬(sec = ("BACKEND") ∧ key = ("waittime")) →
        conn_retry_time v s sec key = s sec key) ∧
    (∀ sec key, ¬(sec = ("BACKEND") ∧ key = ("waittimerecv")) →
        recv_retry_time v s sec key = s sec key) ∧
    (∀ sec key, ¬(sec = ("BACKEND") ∧ key = ("recvtimeout")) →
        ¬(sec = ("BACKEND") ∧ key = ("recveprtimeout")) →
        recv_timeout v s sec key = s sec key) ∧
    conn_retry_time v s ("BACKEND") ("waittime") = some (toString v) ∧
    recv_retry_time v s ("BACKEND") ("waittimerecv") = some (toString v) ∧
    recv_timeout v s ("BACKEND") ("recvtimeout") = some (toString v) ∧
    recv_timeout v s ("BACKEND") ("recveprtimeout") = some (toString v) ∧
    recv_timeout v s ("BACKEND") ("waittime") = s ("BACKEND") ("waittime") ∧
    recv_timeout v s ("BACKEND") ("waittimerecv") = s ("BACKEND") ("waittimerecv") := by
  have e1 : ("waittime" : String) ≠ ("recvtimeout") := by decide
  have e2 : ("waittime" : String) ≠ ("recveprtimeout") := by decide
  have e3 : ("waittimerecv" : String) ≠ ("recvtimeout") := by decide
  have e4 : ("waittimerecv" : String) ≠ ("recveprtimeout") := by decide
  have e5 : ("recvtimeout" : String) ≠ ("recveprtimeout") := by decide
  refine ⟨?_, ?_, ?_, ?_, ?_, ?_, ?_, ?_, ?_⟩
  · intro sec key hw
    simp [conn_retry_time, set_setting, hw]
  · intro sec key hwr
    simp [recv_retry_time, set_setting, hwr]
  · intro sec key hrt hre
    simp [recv_timeout, set_setting, hrt, hre]
  · simp [conn_retry_time, set_setting]
  · simp [recv_retry_time, set_setting]
  · simp [recv_timeout, set_setting, e5]
  · simp [recv_timeout, set_setting]
  · simp [recv_timeout, set_setting, e1, e2]
  · simp [recv_timeout, set_setting, e3, e4]

/-- Witness for C7 at a concrete value and an empty store, instantiating each
command's frame at the other commands' keys — in particular the connection
commands at the receive-side keys — and discharging every hypothesis
concretely. -/
theorem claim_C7_witness :
    conn_retry_time 1.0 no_settings ("BACKEND") ("recvtimeout") =
      no_settings ("BACKEND") ("recvtimeout") ∧
    conn_retry_time 1.0 no_settings ("BACKEND") ("recveprtimeout") =
      no_settings ("BACKEND") ("recveprtimeout") ∧
    conn_retry_time 1.0 no_settings ("BACKEND") ("waittimerecv") =
      no_settings ("BACKEND") ("waittimerecv") ∧
    recv_retry_time 1.0 no_settings ("BACKEND") ("recvtimeout") =
      no_settings ("BACKEND") ("recvtimeout") ∧
    recv_retry_time 1.0 no_settings ("BACKEND") ("recveprtimeout") =
      no_settings ("BACKEND") ("recveprtimeout") ∧
    recv_retry_time 1.0 no_settings ("BACKEND") ("waittime") =
      no_settings ("BACKEND") ("waittime") ∧
    recv_timeout 1.0 no_settings ("FRONTEND") ("loglevel") =
      no_settings ("FRONTEND") ("loglevel") ∧
    conn_retry_time 1.0 no_settings ("BACKEND") ("waittime") = some (toString (1.0 : Float)) ∧
    recv_retry_time 1.0 no_settings ("BACKEND") ("waittimerecv") =
      some (toString (1.0 : Float)) ∧
    recv_timeout 1.0 no_settings ("BACKEND") ("recvtimeout") = some (toString (1.0 : Float)) ∧
    recv_timeout 1.0 no_settings ("BACKEND") ("recveprtimeout") =
      some (toString (1.0 : Float)) ∧
    recv_timeout 1.0 no_settings ("BACKEND") ("waittime") =
      no_settings ("BACKEND") ("waittime") ∧
    recv_timeout 1.0 no_settings ("BACKEND") ("waittimerecv") =
      no_settings ("BACKEND") ("waittimerecv") := by
  have h := claim_C7 1.0 no_settings
  exact ⟨h.1 ("BACKEND") ("recvtimeout") (by decide),
         h.1 ("BACKEND") ("recveprtimeout") (by decide),
         h.1 ("BACKEND") ("waittimerecv") (by decide),
         h.2.1 ("BACKEND") ("recvtimeout") (by decide),
         h.2.1 ("BACKEND") ("recveprtimeout") (by decide),
         h.2.1 ("BACKEND") ("waittime") (by decide),
         h.2.2.1 ("FRONTEND") ("loglevel") (by decide) (by decide),
         h.2.2.2.1, h.2.2.2.2.1, h.2.2.2.2.2.1, h.2.2.2.2.2.2.1,
         h.2.2.2.2.2.2.2.1, h.2.2.2.2.2.2.2.2⟩

/-- C8: stopping a network whose pid record does not exist logs a warning and
returns, stopping no daemon and leaving the pid records and daemons
unchanged. -/
theorem claim_C8 (name : Option String) (st : SysState)
    (h : st.pidfiles.contains (stop_pidfile name) = false) :
    (stop name st).1 = StopOutcome.notRunning ∧
    (stop name st).2.pidfiles = st.pidfiles ∧
    (stop name st).2.daemons = st.daemons ∧
    (stop name st).2.warnings = st.warnings ++ [stop_warning (name.getD ("default"))] := by
  simp at h
  simp [stop, h]

/-- Witness for C8: stopping the default name in a state where a differently
named network runs. -/
theorem claim_C8_witness :
    (stop none
        { pidfiles := [stop_pidfile (some ("other"))], daemons := [], warnings := [] }).1 =
      StopOutcome.notRunning ∧
    (stop none
        { pidfiles := [stop_pidfile (some ("other"))], daemons := [], warnings := [] }).2.pidfiles =
      [stop_pidfile (some ("other"))] ∧
    (stop none
        { pidfiles := [stop_pidfile (some ("other"))], daemons := [], warnings := [] }).2.daemons =
      [] ∧
    (stop none
        { pidfiles := [stop_pidfile (some ("other"))], daemons := [], warnings := [] }).2.warnings =
      [] ++ [stop_warning ((none : Option String).getD ("default"))] :=
  claim_C8 none
    { pidfiles := [stop_pidfile (some ("other"))], daemons := [], warnings := [] } (by decide)

/-- C9: every value the `noisy_qubits` argument validator accepts is one of
the one-character choices of the string `on`, hence never equal to `on`
itself, so the command always stores `False`: the `True` branch is
unreachable through the validator. -/
theorem claim_C9 (value : String) (s : SettingsMap)
    (h : choiceAccepts (stringChoices ("on")) value = true) :
    value ≠ ("on") ∧
    noisy_qubits value s = set_setting ("BACKEND") ("noisy_qubits") ("False") s := by
  have hmem : value ∈ stringChoices ("on") := of_decide_eq_true h
  have e : stringChoices ("on") = [("o"), ("n")] := rfl
  rw [e] at hmem
  have hcase : value = ("o") ∨ value = ("n") := by simpa using hmem
  have hne : value ≠ ("on") := by
    rcases hcase with h1 | h1 <;> subst h1 <;> decide
  refine ⟨hne, ?_⟩
  unfold noisy_qubits
  rw [if_neg hne]

/-- Witness for C9 at the accepted value `o`. -/
theorem claim_C9_witness :
    (("o") : String) ≠ ("on") ∧
    noisy_qubits ("o") no_settings =
      set_setting ("BACKEND") ("noisy_qubits") ("False") no_settings :=
  claim_C9 ("o") no_settings (by decide)

/-- C10: `start` and `stop` compute the same pid-record name for every
`--name` argument; in particular both resolve an absent name to `default`,
yielding `simulaqron_network_default.pid`, and an unnamed `stop` targets the
record of an unnamed `start` and of `start --name default`. -/
theorem claim_C10 :
    start_pidfile none = ("simulaqron_network_default.pid") ∧
    stop_pidfile none = ("simulaqron_network_default.pid") ∧
    (∀ name : Option String, start_pidfile name = stop_pidfile name) ∧
    start_pidfile (some ("default")) = stop_pidfile none := by
  refine ⟨by decide, by decide, fun name => rfl, by decide⟩
